import Mathlib

/-
Verification of the request-handling pipeline of the go-boilerplate
backend: error taxonomy (sqlerr), validation adapter, typed dispatch,
middleware chain (rate limiter, request id, panic recovery, global
error formatter), health handler, and the service constructor.

The only Go implementation file present is
backend/internal/service/services.go; the middleware, handler, errs,
sqlerr and validation packages are documented (README) but their Go
sources are not available here, so those components are modelled from
the specification, as marked on each definition.
-/

namespace GoBoilerplate

/-- A single field-level error entry, `{field, message}`. -/
structure FieldError where
  field : String
  message : String
deriving DecidableEq, Repr

/-- Modelled from the spec: the canonical client-facing error shape of
internal/errs/type.go (code, message, status, override flag, ordered
field errors, optional action hint); the Go source file is absent. -/
structure HTTPError where
  code : String
  message : String
  status : Nat
  override : Bool := false
  errors : List FieldError := []
  action : Option String := none
deriving DecidableEq, Repr

/-- Modelled from the spec: constructor NewBadRequestError of
internal/errs/http.go (400, code BAD_REQUEST). -/
def NewBadRequestError (msg : String) : HTTPError :=
  { code := "BAD_REQUEST", message := msg, status := 400 }

/-- Modelled from the spec: constructor NewNotFoundError of
internal/errs/http.go (404, code NOT_FOUND). -/
def NewNotFoundError (msg : String) : HTTPError :=
  { code := "NOT_FOUND", message := msg, status := 404 }

/-- Modelled from the spec: constructor NewInternalServerError of
internal/errs/http.go (500, code INTERNAL_SERVER_ERROR); the message
is the fixed generic string, never the underlying cause. -/
def NewInternalServerError (msg : String) : HTTPError :=
  { code := "INTERNAL_SERVER_ERROR", message := msg, status := 500 }

/-- Modelled from the spec: constructor ValidationError of
internal/errs/http.go (400, code VALIDATION_ERROR, field errors). -/
def ValidationError (fes : List FieldError) : HTTPError :=
  { code := "VALIDATION_ERROR", message := "Validation failed", status := 400,
    errors := fes }

/-- The fixed generic 500 error: catch-all with a generic message that
never carries internal detail. -/
def genericInternalError : HTTPError :=
  NewInternalServerError "Something went wrong"

/-- Modelled from the spec: the closed StorageErrorCode enumeration of
internal/sqlerr/error.go. -/
inductive StorageErrorCode where
  | NotNullViolation
  | ForeignKeyViolation
  | UniqueViolation
  | CheckViolation
  | NotFound
  | Other
deriving DecidableEq, Repr

/-- Modelled from the spec: MapCode of internal/sqlerr/error.go, the
fixed lookup table from PostgreSQL native codes (23502, 23503, 23505,
23514) to StorageErrorCode; every unrecognized code maps to Other. -/
def MapCode (nativeCode : String) : StorageErrorCode :=
  if nativeCode = "23502" then StorageErrorCode.NotNullViolation
  else if nativeCode = "23503" then StorageErrorCode.ForeignKeyViolation
  else if nativeCode = "23505" then StorageErrorCode.UniqueViolation
  else if nativeCode = "23514" then StorageErrorCode.CheckViolation
  else StorageErrorCode.Other

/-- The error values that can reach HandleError / the global error
formatter: an already-shaped HTTPError, a storage error carrying its
native code, an optional column name and an internal message, a
no-rows error (pgx.ErrNoRows / sql.ErrNoRows), or any other internal
error value. -/
inductive Err where
  | http (e : HTTPError)
  | storage (nativeCode : String) (columnName : Option String) (internalMessage : String)
  | noRows
  | other (internalMessage : String)
deriving DecidableEq, Repr

/-- The field-error detail attached when a column name is available. -/
def fieldDetail (col : Option String) (msg : String) : List FieldError :=
  match col with
  | some c => [{ field := c, message := msg }]
  | none => []

/-- Modelled from the spec: the fixed HTTPError template each
StorageErrorCode maps to in internal/sqlerr/handler.go —
NotNullViolation / ForeignKeyViolation / CheckViolation give 400 with
field detail when a column name is available, UniqueViolation gives
400, NotFound gives 404, Other gives the generic 500. -/
def storageTemplate (c : StorageErrorCode) (col : Option String) : HTTPError :=
  match c with
  | StorageErrorCode.NotNullViolation =>
      { NewBadRequestError "Invalid input" with errors := fieldDetail col "cannot be null" }
  | StorageErrorCode.ForeignKeyViolation =>
      { NewBadRequestError "Invalid reference" with errors := fieldDetail col "invalid reference" }
  | StorageErrorCode.CheckViolation =>
      { NewBadRequestError "Invalid value" with errors := fieldDetail col "invalid value" }
  | StorageErrorCode.UniqueViolation =>
      NewBadRequestError "Resource already exists"
  | StorageErrorCode.NotFound =>
      NewNotFoundError "Resource not found"
  | StorageErrorCode.Other =>
      genericInternalError

/-- Modelled from the spec: HandleError / translate of
internal/sqlerr/handler.go — an HTTPError is returned unchanged, a
storage error is mapped via MapCode to the fixed template, a no-rows
error becomes NotFound, and any other error becomes the generic 500. -/
def HandleError (err : Err) : HTTPError :=
  match err with
  | Err.http e => e
  | Err.storage code col _ => storageTemplate (MapCode code) col
  | Err.noRows => storageTemplate StorageErrorCode.NotFound none
  | Err.other _ => genericInternalError

/-- An HTTP response as seen by the client: status plus body text. -/
structure Response where
  status : Nat
  body : String
deriving DecidableEq, Repr

/-- JSON serialization of one field error. -/
def serializeFieldError (f : FieldError) : String :=
  "\x7b\"field\":\"" ++ f.field ++ "\",\"message\":\"" ++ f.message ++ "\"\x7d"

/-- JSON serialization of an HTTPError, the only error shape ever
written to a client response body. -/
def serializeHTTPError (e : HTTPError) : String :=
  "\x7b\"code\":\"" ++ e.code ++ "\",\"message\":\"" ++ e.message ++
    "\",\"errors\":[" ++ String.intercalate "," (e.errors.map serializeFieldError) ++
    "]\x7d"

/-- Modelled from the spec: GlobalErrorHandler of
internal/middleware/global.go — every error value is first translated
through HandleError and the resulting HTTPError is serialized as the
JSON response body with its status code. -/
def GlobalErrorHandler (err : Err) : Response :=
  { status := (HandleError err).status, body := serializeHTTPError (HandleError err) }

/-- The outcome of the structural bind step of BindAndValidate:
either the deserialization fails with a reason, or it yields a typed
value. -/
inductive BindResult (α : Type) where
  | fail (reason : String)
  | ok (value : α)

/-- A semantic validation rule: applied to the bound value, it either
reports one field error or passes. -/
abbrev Rule (α : Type) := α → Option FieldError

/-- Running the declared rules in declaration order, collecting one
field error per failing rule. -/
def runRules {α : Type} (rules : List (Rule α)) (v : α) : List FieldError :=
  rules.filterMap (fun r => r v)

/-- Modelled from the spec: BindAndValidate of
internal/validation/utils.go — structural bind first; on bind failure
a 400 BAD_REQUEST with the bind reason and no field errors, validation
never attempted; on bind success the validation rules run and their
aggregated field errors, if any, become a single 400 VALIDATION_ERROR. -/
def BindAndValidate {α : Type} (bind : BindResult α) (rules : List (Rule α)) :
    Except HTTPError α :=
  match bind with
  | BindResult.fail reason => Except.error (NewBadRequestError reason)
  | BindResult.ok v =>
      let fes := runRules rules v
      if fes.isEmpty then Except.ok v else Except.error (ValidationError fes)

/-- A structured log line emitted by the middleware chain. -/
structure LogEntry where
  level : String
  message : String
  stack : Option String
deriving DecidableEq, Repr

/-- What control flow hands to the recover middleware: the downstream
stages and handler either produced a response, returned an error
value, or raised a panic carrying a message and a stack trace. -/
inductive HandlerOutcome where
  | ok (resp : Response)
  | err (e : Err)
  | panicked (message : String) (stack : String)
deriving DecidableEq, Repr

/-- Modelled from the spec: the Recover middleware plus the global
error formatter of internal/middleware/global.go — a normal response
passes through, an error value is formatted via GlobalErrorHandler,
and a recovered panic becomes the generic 500 response together with
an error-level log entry carrying the stack trace; every outcome
yields exactly one response, so the process never terminates on a
panic. -/
def RecoverMiddleware (out : HandlerOutcome) : Response × List LogEntry :=
  match out with
  | HandlerOutcome.ok r => (r, [])
  | HandlerOutcome.err e => (GlobalErrorHandler e, [])
  | HandlerOutcome.panicked msg stack =>
      ({ status := 500, body := serializeHTTPError genericInternalError },
       [{ level := "error", message := msg, stack := some stack }])

/-- The rate limiter window size: 20 requests per second. -/
def rateLimit : Nat := 20

/-- In-memory fixed-window counter state of the rate limiter, keyed
per client identity: the second the current window started and how
many requests were admitted in it. -/
structure LimiterState where
  windowStart : Nat
  count : Nat
deriving DecidableEq, Repr

/-- An observability event recorded for New Relic. -/
structure ObsEvent where
  name : String
  endpoint : String
deriving DecidableEq, Repr

/-- Modelled from the spec: RecordRateLimitHit of
internal/middleware/rate_limit.go — the rate-limit-hit custom event
tagged with the endpoint. -/
def RecordRateLimitHit (endpoint : String) : ObsEvent :=
  { name := "RateLimitHit", endpoint := endpoint }

/-- The 429 RATE_LIMITED error returned by the DenyHandler. -/
def rateLimitedError : HTTPError :=
  { code := "RATE_LIMITED", message := "Rate limit exceeded", status := 429 }

/-- Modelled from the spec: one step of the fixed-window rate limiter
wired in NewRouter (internal/router/router.go, 20 req/s memory store)
— a request in a new second resets the window; under the limit the
count is incremented and the request continues (no response produced);
at or over the limit the DenyHandler produces the 429 RATE_LIMITED
response and the rate-limit-hit event tagged with the endpoint is
recorded. -/
def rateLimiterStep (st : LimiterState) (now : Nat) (endpoint : String) :
    LimiterState × Option Response × List ObsEvent :=
  let cur := if st.windowStart = now then st else { windowStart := now, count := 0 }
  if cur.count < rateLimit then
    ({ cur with count := cur.count + 1 }, none, [])
  else
    (cur,
     some { status := 429, body := serializeHTTPError rateLimitedError },
     [RecordRateLimitHit endpoint])

/-- The limiter state after n admitted requests to the same endpoint
within the same second, starting from a fresh window. -/
def afterRequests (now : Nat) (endpoint : String) : Nat → LimiterState
  | 0 => { windowStart := now, count := 0 }
  | n + 1 => (rateLimiterStep (afterRequests now endpoint n) now endpoint).1

/-- Modelled from the spec: the RequestID middleware of
internal/middleware/request_id.go — the inbound X-Request-ID header is
echoed when present (non-empty), and a freshly generated uuid is used
when the client sent none. -/
def RequestIDMiddleware (inboundHeader : String) (freshID : String) : String :=
  if inboundHeader = "" then freshID else inboundHeader

/-- A response together with its X-Request-ID header. -/
structure HeadedResponse where
  requestID : String
  resp : Response
deriving DecidableEq, Repr

/-- Modelled from the spec: the RequestID middleware attaching the
chosen request id to the single response of the request. -/
def applyRequestID (inbound fresh : String) (resp : Response) : HeadedResponse :=
  { requestID := RequestIDMiddleware inbound fresh, resp := resp }

/-- The checks object of the health response body. -/
structure HealthChecks where
  database : String
  redis : String
deriving DecidableEq, Repr

/-- The JSON body of GET /status. -/
structure HealthResponse where
  status : String
  timestamp : Nat
  environment : String
  checks : HealthChecks
deriving DecidableEq, Repr

/-- Modelled from the spec: CheckHealth of internal/handler/health.go
— pings storage and cache, reports each check as ok or fail, and
returns 200 when both are healthy and 503 otherwise. -/
def CheckHealth (dbOk redisOk : Bool) (timestamp : Nat) (environment : String) :
    Nat × HealthResponse :=
  let healthy := dbOk && redisOk
  (if healthy then 200 else 503,
   { status := if healthy then "healthy" else "unhealthy",
     timestamp := timestamp,
     environment := environment,
     checks := { database := if dbOk then "ok" else "fail",
                 redis := if redisOk then "ok" else "fail" } })

/-- The slice of the server configuration read by the service layer. -/
structure Config where
  authSecretKey : String
deriving DecidableEq, Repr

/-- The Asynq job service held by the server (internal/lib/jobs). -/
structure JobService where
  redisAddress : String
deriving DecidableEq, Repr

/-- The server value passed to NewServices (internal/server): it
carries the config and the already-constructed job service. -/
structure Server where
  config : Config
  job : JobService
deriving DecidableEq, Repr

/-- Repositories is an empty struct in
internal/repository/repositories.go. -/
structure Repositories
deriving DecidableEq, Repr

/-- Modelled from the spec: AuthService of internal/service/auth.go —
it only records the Clerk secret key from config. -/
structure AuthService where
  clerkSecretKey : String
deriving DecidableEq, Repr

/-- Modelled from the spec: NewAuthService sets the Clerk secret key
from the server config. -/
def NewAuthService (s : Server) : AuthService :=
  { clerkSecretKey := s.config.authSecretKey }

/-- The Services struct of internal/service/services.go: Auth and Job. -/
structure Services where
  Auth : AuthService
  Job : JobService
deriving DecidableEq, Repr

/-- NewServices of internal/service/services.go: builds the
AuthService and attaches the server job service; the Go error result
(second component, nil modelled as none) is always nil. -/
def NewServices (s : Server) (_repos : Repositories) : Services × Option String :=
  ({ Job := s.job, Auth := NewAuthService s }, none)

theorem runRules_length {α : Type} (rules : List (Rule α)) (v : α) :
    (runRules rules v).length =
      (rules.filter (fun rule => (rule v).isSome)).length := by
  induction rules with
  | nil => rfl
  | cons r rs ih =>
      cases h : r v <;>
        simp [runRules, List.filterMap_cons, List.filter_cons, h] <;>
        simpa [runRules] using ih

theorem afterRequests_state (now : Nat) (ep : String) :
    ∀ n, n ≤ rateLimit →
      (afterRequests now ep n).windowStart = now ∧
      (afterRequests now ep n).count = n := by
  intro n
  induction n with
  | zero => intro _; exact ⟨rfl, rfl⟩
  | succ k ih =>
      intro hk
      obtain ⟨hw, hc⟩ := ih (Nat.le_of_succ_le hk)
      constructor <;>
        simp [afterRequests, rateLimiterStep, hw, hc, Nat.lt_of_succ_le hk]

/-- Claim C1: every storage-layer error passed to HandleError follows
the fixed template: the storage branch is exactly MapCode followed by
storageTemplate (so the internal message never influences the result);
NotNullViolation, ForeignKeyViolation and CheckViolation map to status
400 with a field error when a column name is available, UniqueViolation
maps to 400, NotFound and no-rows errors map to 404, and Other maps to
the generic 500 whose message carries no internal detail. -/
theorem handleError_storage_template (code : String) (col : Option String)
    (im : String) :
    HandleError (Err.storage code col im) = storageTemplate (MapCode code) col ∧
    HandleError Err.noRows = storageTemplate StorageErrorCode.NotFound none ∧
    (∀ c, (storageTemplate StorageErrorCode.NotNullViolation c).status = 400 ∧
          (storageTemplate StorageErrorCode.ForeignKeyViolation c).status = 400 ∧
          (storageTemplate StorageErrorCode.CheckViolation c).status = 400 ∧
          (storageTemplate StorageErrorCode.UniqueViolation c).status = 400 ∧
          (storageTemplate StorageErrorCode.NotFound c).status = 404 ∧
          storageTemplate StorageErrorCode.Other c = genericInternalError) ∧
    (∀ name,
        (storageTemplate StorageErrorCode.NotNullViolation (some name)).errors =
          [{ field := name, message := "cannot be null" }] ∧
        (storageTemplate StorageErrorCode.ForeignKeyViolation (some name)).errors =
          [{ field := name, message := "invalid reference" }] ∧
        (storageTemplate StorageErrorCode.CheckViolation (some name)).errors =
          [{ field := name, message := "invalid value" }]) ∧
    genericInternalError.status = 500 ∧
    genericInternalError.message = "Something went wrong" := by
  refine ⟨rfl, rfl, ?_, ?_, rfl, rfl⟩ <;> intro x <;>
    simp [storageTemplate, fieldDetail, NewBadRequestError, NewNotFoundError,
      genericInternalError, NewInternalServerError]

/-- Claim C2: every error value reaching the global error formatter is
serialized as an HTTPError — for every input the response is the
rendering of some HTTPError, and the internal message of a raw error
(storage or otherwise) never influences the response body. -/
theorem globalErrorHandler_only_serializes_httpError :
    (∀ e : Err, ∃ h : HTTPError,
        GlobalErrorHandler e =
          { status := h.status, body := serializeHTTPError h }) ∧
    (∀ m₁ m₂ : String,
        GlobalErrorHandler (Err.other m₁) = GlobalErrorHandler (Err.other m₂)) ∧
    (∀ code col (m₁ m₂ : String),
        GlobalErrorHandler (Err.storage code col m₁) =
          GlobalErrorHandler (Err.storage code col m₂)) :=
  ⟨fun e => ⟨HandleError e, rfl⟩, fun _ _ => rfl, fun _ _ _ _ => rfl⟩

/-- Claim C3: BindAndValidate returns 400 with no field errors on bind
failure and never consults the validation rules there (short-circuit);
when binding succeeds and at least one rule fails it returns a single
400 VALIDATION_ERROR carrying exactly one field error per failing
rule, in rule declaration order (runRules is an order-preserving
append homomorphism and its length equals the number of failing
rules). -/
theorem bindAndValidate_contract {α : Type} (r : String) (v : α)
    (rules rules2 : List (Rule α)) (hfail : runRules rules v ≠ []) :
    (BindAndValidate (BindResult.fail r) rules = Except.error (NewBadRequestError r) ∧
     (NewBadRequestError r).status = 400 ∧
     (NewBadRequestError r).errors = [] ∧
     BindAndValidate (BindResult.fail r) rules =
       BindAndValidate (BindResult.fail r) rules2) ∧
    (BindAndValidate (BindResult.ok v) rules =
       Except.error (ValidationError (runRules rules v)) ∧
     (ValidationError (runRules rules v)).status = 400 ∧
     (ValidationError (runRules rules v)).errors = runRules rules v ∧
     (runRules rules v).length =
       (rules.filter (fun rule => (rule v).isSome)).length ∧
     ∀ pre post, runRules (pre ++ post) v = runRules pre v ++ runRules post v) := by
  refine ⟨⟨rfl, rfl, rfl, rfl⟩, ?_, rfl, rfl, runRules_length rules v, ?_⟩
  · simp only [BindAndValidate]
    rw [if_neg]
    simp [List.isEmpty_iff, hfail]
  · intro pre post
    simp [runRules, List.filterMap_append]

/-- A concrete validation rule used to witness the validation branch:
requires the bound number to be nonzero. -/
def requiredNameRule : Rule Nat := fun n =>
  if n = 0 then some { field := "name", message := "required" } else none

/-- Witness for bindAndValidate_contract at a concrete failing rule. -/
theorem bindAndValidate_contract_witness :
    runRules [requiredNameRule] 0 ≠ [] ∧
    BindAndValidate (BindResult.ok 0) [requiredNameRule] =
      Except.error (ValidationError (runRules [requiredNameRule] 0)) :=
  ⟨by decide,
   (bindAndValidate_contract "malformed" 0 [requiredNameRule] [] (by decide)).2.1⟩

/-- Claim C4: a recovered panic is converted into the 500 response with
the fixed generic message, and an error-level log entry carrying the
stack trace is recorded; RecoverMiddleware is a total function, so
every outcome (including a panic) still yields exactly one response
and the process does not terminate. -/
theorem recoverMiddleware_panic_contract (msg stack : String) :
    (RecoverMiddleware (HandlerOutcome.panicked msg stack)).1.status = 500 ∧
    (RecoverMiddleware (HandlerOutcome.panicked msg stack)).1.body =
      serializeHTTPError genericInternalError ∧
    genericInternalError.message = "Something went wrong" ∧
    (RecoverMiddleware (HandlerOutcome.panicked msg stack)).2 =
      [{ level := "error", message := msg, stack := some stack }] :=
  ⟨rfl, rfl, rfl, rfl⟩

/-- Claim C5: the rate limiter is a fixed-window counter of 20
requests per second: each of the first 20 requests in a window is
admitted (no response, no event), and the 21st request in the same
second is denied with the 429 RATE_LIMITED response while the
rate-limit-hit event tagged with the endpoint is recorded. -/
theorem rateLimiter_window_contract (now : Nat) (ep : String) :
    (∀ n, n < rateLimit →
        (rateLimiterStep (afterRequests now ep n) now ep).2.1 = none ∧
        (rateLimiterStep (afterRequests now ep n) now ep).2.2 = []) ∧
    (rateLimiterStep (afterRequests now ep rateLimit) now ep).2.1 =
      some { status := 429, body := serializeHTTPError rateLimitedError } ∧
    (rateLimiterStep (afterRequests now ep rateLimit) now ep).2.2 =
      [RecordRateLimitHit ep] ∧
    rateLimitedError.status = 429 ∧
    rateLimitedError.code = "RATE_LIMITED" := by
  obtain ⟨hw20, hc20⟩ := afterRequests_state now ep rateLimit (Nat.le_refl _)
  refine ⟨?_, ?_, ?_, rfl, rfl⟩
  · intro n hn
    obtain ⟨hw, hc⟩ := afterRequests_state now ep n (Nat.le_of_lt hn)
    constructor <;> simp [rateLimiterStep, hw, hc, hn]
  · simp [rateLimiterStep, hw20, hc20]
  · simp [rateLimiterStep, hw20, hc20]

/-- Witness for rateLimiter_window_contract: the sixth request of a
fresh window is admitted. -/
theorem rateLimiter_window_contract_witness :
    (rateLimiterStep (afterRequests 0 "/status" 5) 0 "/status").2.1 = none :=
  ((rateLimiter_window_contract 0 "/status").1 5 (by decide)).1

/-- Claim C6: GET /status with storage reachable and cache unreachable
responds 503 with checks.database = "ok" and checks.redis = "fail". -/
theorem checkHealth_db_ok_redis_fail (ts : Nat) (env : String) :
    (CheckHealth true false ts env).1 = 503 ∧
    (CheckHealth true false ts env).2.checks.database = "ok" ∧
    (CheckHealth true false ts env).2.checks.redis = "fail" ∧
    (CheckHealth true false ts env).2.status = "unhealthy" :=
  ⟨rfl, rfl, rfl, rfl⟩

/-- Claim C7: HandleError is the identity on errors that are already
HTTPError values. -/
theorem handleError_identity_on_httpError (e : HTTPError) :
    HandleError (Err.http e) = e := rfl

/-- Claim C8: MapCode is total over native storage codes: every code
in the fixed lookup table returns the documented StorageErrorCode and
every other code returns Other. -/
theorem mapCode_total_table :
    (MapCode "23502" = StorageErrorCode.NotNullViolation ∧
     MapCode "23503" = StorageErrorCode.ForeignKeyViolation ∧
     MapCode "23505" = StorageErrorCode.UniqueViolation ∧
     MapCode "23514" = StorageErrorCode.CheckViolation) ∧
    ∀ c, c ≠ "23502" → c ≠ "23503" → c ≠ "23505" → c ≠ "23514" →
      MapCode c = StorageErrorCode.Other := by
  refine ⟨⟨by decide, by decide, by decide, by decide⟩, ?_⟩
  intro c h1 h2 h3 h4
  simp [MapCode, h1, h2, h3, h4]

/-- Witness for mapCode_total_table at an unrecognized native code. -/
theorem mapCode_total_table_witness : MapCode "P0001" = StorageErrorCode.Other :=
  mapCode_total_table.2 "P0001" (by decide) (by decide) (by decide) (by decide)

/-- Claim C9: the single response of every request carries a non-empty
X-Request-ID: the inbound header value is echoed when present and the
freshly generated (non-empty) identifier is used when the client sent
none; the rest of the response is unchanged. -/
theorem requestID_header_contract (inbound fresh : String) (r : Response)
    (hfresh : fresh ≠ "") :
    (applyRequestID inbound fresh r).requestID ≠ "" ∧
    (inbound ≠ "" → (applyRequestID inbound fresh r).requestID = inbound) ∧
    (inbound = "" → (applyRequestID inbound fresh r).requestID = fresh) ∧
    (applyRequestID inbound fresh r).resp = r := by
  unfold applyRequestID RequestIDMiddleware
  by_cases h : inbound = "" <;> simp [h, hfresh]

/-- Witness for requestID_header_contract when the client sent no
X-Request-ID header. -/
theorem requestID_header_contract_witness :
    (applyRequestID "" "d3b07384-d9a0-4c9c-8e4f-92b6f3f1a001"
        { status := 200, body := "" }).requestID ≠ "" :=
  (requestID_header_contract "" "d3b07384-d9a0-4c9c-8e4f-92b6f3f1a001"
      { status := 200, body := "" } (by decide)).1

/-- Claim C10: NewServices never fails — for every server and
repositories argument its error result is nil (none). -/
theorem newServices_never_fails (s : Server) (repos : Repositories) :
    (NewServices s repos).2 = none := rfl

end GoBoilerplate
